import Mathlib

/-!
Verification of the second-order recursive filter (`RecursiveConvolution`)
from `RecursiveConvolution.py` and its verbatim duplicate in `cart.py`.

The Python class stores optional (initially `None`) derived coefficients and
real-valued history.  We embed floats as real numbers, the `None`-able fields
as `Option ℝ`, and Python exceptions as an `Except` result that is paired
with the post-call state, because in Python an exception escaping a method
leaves every field assignment that already happened in place.
-/

noncomputable section

namespace RecConv

/-- Python exceptions raised by the filter methods. -/
inductive PyError where
  | zeroDivision
  | valueError
  | typeError

/-- State of the `RecursiveConvolution` class from `RecursiveConvolution.py`:
optional derived coefficients `g0 g1 g2 alpha omega dt` (all `None` at
construction) and the real history `prev_y1 prev_y2 prev_x` (all `0`). -/
structure RecursiveConvolution where
  g0 : Option ℝ
  g1 : Option ℝ
  g2 : Option ℝ
  alpha : Option ℝ
  omega : Option ℝ
  prev_y1 : ℝ
  prev_y2 : ℝ
  prev_x : ℝ
  dt : Option ℝ

/-- `__init__`: every coefficient is `None`, the history is `0`. -/
def RecursiveConvolution.init : RecursiveConvolution :=
  ⟨none, none, none, none, none, 0, 0, 0, none⟩

/-- `update_parameters(b, m, k, dt)` from `RecursiveConvolution.py`.

Python evaluates the assignments in order, so an exception part-way through
leaves the earlier assignments in place:
* `self.alpha = b / (2 * m)` raises `ZeroDivisionError` when `2 * m == 0`
  (before any field is written);
* `self.omega`, `self.g0` are then assigned;
* the `self.g1` right-hand side divides by `m * self.omega` and raises
  `ZeroDivisionError` when that is zero — `alpha`, `omega`, `g0` have
  already been overwritten, `g1` and `dt` have not;
* finally `self.g1` and `self.dt` are assigned. -/
def RecursiveConvolution.update_parameters (s : RecursiveConvolution)
    (b m k dt : ℝ) : Except PyError Unit × RecursiveConvolution :=
  if 2 * m = 0 then (Except.error PyError.zeroDivision, s)
  else
    let alpha := b / (2 * m)
    let omega := Real.sqrt (max 0 (k / m - alpha ^ 2))
    let g0 := b / m
    let s1 := { s with alpha := some alpha, omega := some omega, g0 := some g0 }
    if m * omega = 0 then (Except.error PyError.zeroDivision, s1)
    else
      let g1 := b / m * Real.exp (-alpha * dt) * Real.cos (omega * dt) +
        (k - b ^ 2 / (2 * m)) / (m * omega) * Real.exp (-alpha * dt) *
          Real.sin (omega * dt)
      (Except.ok (), { s1 with g1 := some g1, dt := some dt })

/-- `calculate_output(x)` from `RecursiveConvolution.py`.

Raises `ValueError` when `self.g1 is None or self.dt is None`; afterwards it
multiplies `self.alpha`, `self.omega`, `self.g0` by reals, which in Python
raises `TypeError` if any of them is still `None` (unreachable from the
constructor, but part of the method's behaviour).  On success it computes
`y`, shifts the history and returns `y`. -/
def RecursiveConvolution.calculate_output (s : RecursiveConvolution)
    (x : ℝ) : Except PyError ℝ × RecursiveConvolution :=
  match s.g1, s.dt with
  | some g1, some dt =>
    match s.alpha, s.omega, s.g0 with
    | some alpha, some omega, some g0 =>
      let e1 := Real.exp (-alpha * dt)
      let c := Real.cos (omega * dt)
      let e2 := Real.exp (-2 * alpha * dt)
      let y := 2 * e1 * c * s.prev_y1 - e2 * s.prev_y2 + dt * g0 * x +
        dt * (g1 - 2 * e1 * g0 * c) * s.prev_x
      (Except.ok y, { s with prev_y2 := s.prev_y1, prev_y1 := y, prev_x := x })
    | _, _, _ => (Except.error PyError.typeError, s)
  | _, _ => (Except.error PyError.valueError, s)

/-- A concrete fully-initialized state (all coefficients zero), used to
instantiate theorems with hypotheses at an explicit input. -/
def exampleState : RecursiveConvolution :=
  ⟨some 0, some 0, none, some 0, some 0, 0, 0, 0, some 0⟩

/-- C6: a freshly constructed filter rejects every `advance` call with the
uninitialized (`ValueError`) error and leaves the state unchanged. -/
theorem calculate_output_uninitialized (x : ℝ) :
    RecursiveConvolution.init.calculate_output x =
      (Except.error PyError.valueError, RecursiveConvolution.init) := rfl

/-- C1: whenever all stored coefficients are set (as after a successful
`update_parameters`), `calculate_output x` returns exactly
`y = 2·decay·cosTerm·prev_y1 − decay2·prev_y2 + dt·g0·x +
dt·(g1 − 2·decay·g0·cosTerm)·prev_x`, with `decay = e^(−α·dt)`,
`cosTerm = cos(ω·dt)`, `decay2 = e^(−2·α·dt)` recomputed on that call from
the currently stored `α`, `ω`, `dt`. -/
theorem calculate_output_formula (s : RecursiveConvolution)
    (a w g0 g1 dt x : ℝ) (ha : s.alpha = some a) (hw : s.omega = some w)
    (hg0 : s.g0 = some g0) (hg1 : s.g1 = some g1) (hdt : s.dt = some dt) :
    (s.calculate_output x).1 = Except.ok
      (2 * Real.exp (-a * dt) * Real.cos (w * dt) * s.prev_y1 -
        Real.exp (-2 * a * dt) * s.prev_y2 + dt * g0 * x +
        dt * (g1 - 2 * Real.exp (-a * dt) * g0 * Real.cos (w * dt)) *
          s.prev_x) := by
  simp [RecursiveConvolution.calculate_output, ha, hw, hg0, hg1, hdt]

/-- Instantiation of the C1 formula at the concrete state `exampleState`
and input `x = 1`. -/
theorem calculate_output_formula_witness :
    (exampleState.calculate_output 1).1 = Except.ok
      (2 * Real.exp (-0 * 0) * Real.cos (0 * 0) * exampleState.prev_y1 -
        Real.exp (-2 * 0 * 0) * exampleState.prev_y2 + 0 * 0 * 1 +
        0 * (0 - 2 * Real.exp (-0 * 0) * 0 * Real.cos (0 * 0)) *
          exampleState.prev_x) :=
  calculate_output_formula exampleState 0 0 0 0 0 1 rfl rfl rfl rfl rfl

/-- `update_parameters(b=0, m=1, k=1, dt=1)` succeeds on a fresh filter:
`2·m = 2 ≠ 0` and `m·ω = sqrt(max(0, 1)) = 1 ≠ 0`. -/
theorem update_ok_example :
    (RecursiveConvolution.init.update_parameters 0 1 1 1).1 =
      Except.ok () := by
  norm_num [RecursiveConvolution.update_parameters, Real.sqrt_eq_zero',
    max_le_iff]

/-- C2: after any successful `update_parameters(b, m, k, dt)` with `m ≠ 0`,
the stored values are `α = b/(2m)`, `ω = sqrt(max(0, k/m − α²))`,
`g0 = b/m`, `dt` as passed, and — whenever `ω ≠ 0` —
`g1 = g0·e^(−α·dt)·cos(ω·dt) + ((k − b²/(2m))/(m·ω))·e^(−α·dt)·sin(ω·dt)`. -/
theorem update_parameters_values (s : RecursiveConvolution) (b m k dt : ℝ)
    (hm : m ≠ 0) (hok : (s.update_parameters b m k dt).1 = Except.ok ()) :
    ((s.update_parameters b m k dt).2).alpha = some (b / (2 * m)) ∧
    ((s.update_parameters b m k dt).2).omega =
      some (Real.sqrt (max 0 (k / m - (b / (2 * m)) ^ 2))) ∧
    ((s.update_parameters b m k dt).2).g0 = some (b / m) ∧
    ((s.update_parameters b m k dt).2).dt = some dt ∧
    (Real.sqrt (max 0 (k / m - (b / (2 * m)) ^ 2)) ≠ 0 →
      ((s.update_parameters b m k dt).2).g1 = some
        (b / m * Real.exp (-(b / (2 * m)) * dt) *
            Real.cos (Real.sqrt (max 0 (k / m - (b / (2 * m)) ^ 2)) * dt) +
          (k - b ^ 2 / (2 * m)) /
              (m * Real.sqrt (max 0 (k / m - (b / (2 * m)) ^ 2))) *
            Real.exp (-(b / (2 * m)) * dt) *
            Real.sin (Real.sqrt (max 0 (k / m - (b / (2 * m)) ^ 2)) * dt))) := by
  have h1 : ¬ (2 * m = 0) := by
    simpa using mul_ne_zero two_ne_zero hm
  have h2 : ¬ (m * Real.sqrt (max 0 (k / m - (b / (2 * m)) ^ 2)) = 0) := by
    intro h
    simp [RecursiveConvolution.update_parameters, h1, h] at hok
  refine ⟨?_, ?_, ?_, ?_, ?_⟩ <;>
    simp [RecursiveConvolution.update_parameters, h1, h2]

/-- Instantiation of C2 at `b=0, m=1, k=1, dt=1` on a fresh filter. -/
theorem update_parameters_values_witness :
    ((RecursiveConvolution.init.update_parameters 0 1 1 1).2).alpha =
      some (0 / (2 * 1)) ∧
    ((RecursiveConvolution.init.update_parameters 0 1 1 1).2).dt = some 1 := by
  have h := update_parameters_values RecursiveConvolution.init 0 1 1 1
    one_ne_zero update_ok_example
  exact ⟨h.1, h.2.2.2.1⟩

/-- C3: at `b=2, m=1, k=1` the clamp gives `ω = 0`, and
`update_parameters` raises `ZeroDivisionError` (the `g1` line divides by
`m·ω = 0`) instead of succeeding with the finite ω→0 limit of `g1`. -/
theorem update_parameters_omega_zero_raises :
    (RecursiveConvolution.init.update_parameters 2 1 1 (1 / 100)).1 =
      Except.error PyError.zeroDivision := by
  norm_num [RecursiveConvolution.update_parameters, Real.sqrt_eq_zero',
    max_le_iff]

/-- The failing `update_parameters(b=2, m=1, k=1, dt=1)` call on
`exampleState` (it fails because `ω = 0`). -/
theorem update_err_example :
    (exampleState.update_parameters 2 1 1 1).1 =
      Except.error PyError.zeroDivision := by
  norm_num [RecursiveConvolution.update_parameters, Real.sqrt_eq_zero',
    max_le_iff]

/-- C4 counterexample: a failed `update_parameters` call is not atomic.
On `exampleState` (stored `α = 0`) the call `update_parameters(2, 1, 1, 1)`
fails with `ZeroDivisionError`, yet afterwards the stored `α` has changed
(to `1`). -/
theorem update_parameters_not_atomic :
    (exampleState.update_parameters 2 1 1 1).1 =
      Except.error PyError.zeroDivision ∧
    ((exampleState.update_parameters 2 1 1 1).2).alpha ≠
      exampleState.alpha := by
  norm_num [RecursiveConvolution.update_parameters, exampleState,
    Real.sqrt_eq_zero', max_le_iff]

/-- C4 amended: a call failing at `m = 0` leaves the whole state unchanged,
while a call failing inside the `g1` computation (`m ≠ 0` but `ω = 0`)
leaves `g1`, `dt` and the history unchanged but has already overwritten
`α`, `ω`, `g0` with the freshly computed values. -/
theorem update_parameters_failure_frame (s : RecursiveConvolution)
    (b m k dt : ℝ) :
    (m = 0 → s.update_parameters b m k dt =
      (Except.error PyError.zeroDivision, s)) ∧
    ((s.update_parameters b m k dt).1 = Except.error PyError.zeroDivision →
      m ≠ 0 →
      ((s.update_parameters b m k dt).2).g1 = s.g1 ∧
      ((s.update_parameters b m k dt).2).dt = s.dt ∧
      ((s.update_parameters b m k dt).2).g2 = s.g2 ∧
      ((s.update_parameters b m k dt).2).prev_y1 = s.prev_y1 ∧
      ((s.update_parameters b m k dt).2).prev_y2 = s.prev_y2 ∧
      ((s.update_parameters b m k dt).2).prev_x = s.prev_x ∧
      ((s.update_parameters b m k dt).2).alpha = some (b / (2 * m)) ∧
      ((s.update_parameters b m k dt).2).omega =
        some (Real.sqrt (max 0 (k / m - (b / (2 * m)) ^ 2))) ∧
      ((s.update_parameters b m k dt).2).g0 = some (b / m)) := by
  constructor
  · intro hm
    simp [RecursiveConvolution.update_parameters, hm]
  · intro herr hm
    have h1 : ¬ (2 * m = 0) := by
      simpa using mul_ne_zero two_ne_zero hm
    by_cases h2 : m * Real.sqrt (max 0 (k / m - (b / (2 * m)) ^ 2)) = 0
    · refine ⟨?_, ?_, ?_, ?_, ?_, ?_, ?_, ?_, ?_⟩ <;>
        simp [RecursiveConvolution.update_parameters, h1, h2]
    · simp [RecursiveConvolution.update_parameters, h1, h2] at herr

/-- Instantiation of the amended C4 frame condition at the concrete failed
call `update_parameters(2, 1, 1, 1)` on `exampleState`. -/
theorem update_parameters_failure_frame_witness :
    ((exampleState.update_parameters 2 1 1 1).2).g1 = exampleState.g1 ∧
    ((exampleState.update_parameters 2 1 1 1).2).alpha =
      some (2 / (2 * 1)) := by
  have h := (update_parameters_failure_frame exampleState 2 1 1 1).2
    update_err_example one_ne_zero
  exact ⟨h.1, h.2.2.2.2.2.2.1⟩

/-- C5 counterexample: `update_parameters(b=1, m=1, k=10, dt=−1)` succeeds
even though the sample period is negative — the code never validates `dt`. -/
theorem update_parameters_accepts_nonpositive_dt :
    (RecursiveConvolution.init.update_parameters 1 1 10 (-1)).1 =
      Except.ok () := by
  norm_num [RecursiveConvolution.update_parameters, Real.sqrt_eq_zero',
    max_le_iff]

/-- C5 amended: `update_parameters(b, m, k, dt)` signals an error iff
`m = 0` or `k/m − (b/(2m))² ≤ 0` (the case where `ω` clamps to `0`);
the sample period `dt` is never validated. -/
theorem update_parameters_error_iff (s : RecursiveConvolution)
    (b m k dt : ℝ) :
    (s.update_parameters b m k dt).1 = Except.error PyError.zeroDivision ↔
      m = 0 ∨ k / m - (b / (2 * m)) ^ 2 ≤ 0 := by
  by_cases hm : m = 0
  · simp [RecursiveConvolution.update_parameters, hm]
  · have h1 : ¬ (2 * m = 0) := by
      simpa using mul_ne_zero two_ne_zero hm
    by_cases h2 : m * Real.sqrt (max 0 (k / m - (b / (2 * m)) ^ 2)) = 0
    · have hle : k / m - (b / (2 * m)) ^ 2 ≤ 0 := by
        rcases mul_eq_zero.mp h2 with h | h
        · exact absurd h hm
        · simpa [max_le_iff] using Real.sqrt_eq_zero'.mp h
      simp [RecursiveConvolution.update_parameters, h1, h2, hm, hle]
    · have hnot : ¬ (k / m - (b / (2 * m)) ^ 2 ≤ 0) := by
        intro hle
        apply h2
        have hs : Real.sqrt (max 0 (k / m - (b / (2 * m)) ^ 2)) = 0 := by
          rw [Real.sqrt_eq_zero']
          exact max_le le_rfl hle
        rw [hs, mul_zero]
      simp [RecursiveConvolution.update_parameters, h1, h2, hm, hnot]

/-- C7: a successful `calculate_output x` returning `y` shifts the history
exactly once — `prev_y2 ← prev_y1`, `prev_y1 ← y`, `prev_x ← x` — and
changes no other field (`α`, `ω`, `g0`, `g1`, `g2`, `dt` are untouched,
which the single record-update equality expresses). -/
theorem calculate_output_frame (s : RecursiveConvolution) (x y : ℝ)
    (h : (s.calculate_output x).1 = Except.ok y) :
    (s.calculate_output x).2 =
      { s with prev_y2 := s.prev_y1, prev_y1 := y, prev_x := x } := by
  cases hg1 : s.g1 with
  | none => simp [RecursiveConvolution.calculate_output, hg1] at h
  | some g1 =>
  cases hdt : s.dt with
  | none => simp [RecursiveConvolution.calculate_output, hg1, hdt] at h
  | some dt =>
  cases ha : s.alpha with
  | none => simp [RecursiveConvolution.calculate_output, hg1, hdt, ha] at h
  | some a =>
  cases hw : s.omega with
  | none => simp [RecursiveConvolution.calculate_output, hg1, hdt, ha, hw] at h
  | some w =>
  cases hg0 : s.g0 with
  | none =>
    simp [RecursiveConvolution.calculate_output, hg1, hdt, ha, hw, hg0] at h
  | some g0 =>
    simp [RecursiveConvolution.calculate_output, hg1, hdt, ha, hw, hg0]
      at h ⊢
    rw [h]

/-- Instantiation of the C7 frame condition at `exampleState`, `x = 0`
(the returned output there is `0`). -/
theorem calculate_output_frame_witness :
    (exampleState.calculate_output 0).2 =
      { exampleState with
          prev_y2 := exampleState.prev_y1
          prev_y1 := 0
          prev_x := 0 } := by
  have h : (exampleState.calculate_output 0).1 = Except.ok 0 := by
    norm_num [RecursiveConvolution.calculate_output, exampleState]
  exact calculate_output_frame exampleState 0 0 h

/-- C8: `update_parameters` is idempotent on the derived coefficients and a
no-op on history — after a successful call, repeating the call with the
same arguments succeeds and stores the same `α`, `ω`, `g0`, `g1`, `dt`,
and neither call changes `prev_y1`, `prev_y2`, `prev_x`. -/
theorem update_parameters_idempotent (s : RecursiveConvolution)
    (b m k dt : ℝ)
    (hok : (s.update_parameters b m k dt).1 = Except.ok ()) :
    (((s.update_parameters b m k dt).2).update_parameters b m k dt).1 =
      Except.ok () ∧
    ((((s.update_parameters b m k dt).2).update_parameters
        b m k dt).2).alpha = ((s.update_parameters b m k dt).2).alpha ∧
    ((((s.update_parameters b m k dt).2).update_parameters
        b m k dt).2).omega = ((s.update_parameters b m k dt).2).omega ∧
    ((((s.update_parameters b m k dt).2).update_parameters
        b m k dt).2).g0 = ((s.update_parameters b m k dt).2).g0 ∧
    ((((s.update_parameters b m k dt).2).update_parameters
        b m k dt).2).g1 = ((s.update_parameters b m k dt).2).g1 ∧
    ((((s.update_parameters b m k dt).2).update_parameters
        b m k dt).2).dt = ((s.update_parameters b m k dt).2).dt ∧
    ((s.update_parameters b m k dt).2).prev_y1 = s.prev_y1 ∧
    ((s.update_parameters b m k dt).2).prev_y2 = s.prev_y2 ∧
    ((s.update_parameters b m k dt).2).prev_x = s.prev_x ∧
    ((((s.update_parameters b m k dt).2).update_parameters
        b m k dt).2).prev_y1 = s.prev_y1 ∧
    ((((s.update_parameters b m k dt).2).update_parameters
        b m k dt).2).prev_y2 = s.prev_y2 ∧
    ((((s.update_parameters b m k dt).2).update_parameters
        b m k dt).2).prev_x = s.prev_x := by
  have h1 : ¬ (2 * m = 0) := by
    intro h
    simp [RecursiveConvolution.update_parameters, h] at hok
  have h2 : ¬ (m * Real.sqrt (max 0 (k / m - (b / (2 * m)) ^ 2)) = 0) := by
    intro h
    simp [RecursiveConvolution.update_parameters, h1, h] at hok
  refine ⟨?_, ?_, ?_, ?_, ?_, ?_, ?_, ?_, ?_, ?_, ?_, ?_⟩ <;>
    simp [RecursiveConvolution.update_parameters, h1, h2]

/-- Instantiation of C8 at `b=0, m=1, k=1, dt=1` on a fresh filter. -/
theorem update_parameters_idempotent_witness :
    (((RecursiveConvolution.init.update_parameters 0 1 1 1).2).update_parameters
        0 1 1 1).1 = Except.ok () ∧
    ((RecursiveConvolution.init.update_parameters 0 1 1 1).2).prev_y1 =
      RecursiveConvolution.init.prev_y1 := by
  have h := update_parameters_idempotent RecursiveConvolution.init 0 1 1 1
    update_ok_example
  exact ⟨h.1, h.2.2.2.2.2.2.1⟩

/-- The verbatim second copy of the filter class, `RecursiveConvolution`
in `cart.py` (lines 272–342): same fields, same defaults. -/
structure RecursiveConvolutionCart where
  g0 : Option ℝ
  g1 : Option ℝ
  g2 : Option ℝ
  alpha : Option ℝ
  omega : Option ℝ
  prev_y1 : ℝ
  prev_y2 : ℝ
  prev_x : ℝ
  dt : Option ℝ

/-- `__init__` of the `cart.py` copy. -/
def RecursiveConvolutionCart.init : RecursiveConvolutionCart :=
  ⟨none, none, none, none, none, 0, 0, 0, none⟩

/-- `update_parameters(b, m, k, dt)` of the `cart.py` copy
(lines 287–309, textually identical to `RecursiveConvolution.py`). -/
def RecursiveConvolutionCart.update_parameters (s : RecursiveConvolutionCart)
    (b m k dt : ℝ) : Except PyError Unit × RecursiveConvolutionCart :=
  if 2 * m = 0 then (Except.error PyError.zeroDivision, s)
  else
    let alpha := b / (2 * m)
    let omega := Real.sqrt (max 0 (k / m - alpha ^ 2))
    let g0 := b / m
    let s1 := { s with alpha := some alpha, omega := some omega, g0 := some g0 }
    if m * omega = 0 then (Except.error PyError.zeroDivision, s1)
    else
      let g1 := b / m * Real.exp (-alpha * dt) * Real.cos (omega * dt) +
        (k - b ^ 2 / (2 * m)) / (m * omega) * Real.exp (-alpha * dt) *
          Real.sin (omega * dt)
      (Except.ok (), { s1 with g1 := some g1, dt := some dt })

/-- `calculate_output(x)` of the `cart.py` copy (lines 311–342, textually
identical to `RecursiveConvolution.py`). -/
def RecursiveConvolutionCart.calculate_output (s : RecursiveConvolutionCart)
    (x : ℝ) : Except PyError ℝ × RecursiveConvolutionCart :=
  match s.g1, s.dt with
  | some g1, some dt =>
    match s.alpha, s.omega, s.g0 with
    | some alpha, some omega, some g0 =>
      let e1 := Real.exp (-alpha * dt)
      let c := Real.cos (omega * dt)
      let e2 := Real.exp (-2 * alpha * dt)
      let y := 2 * e1 * c * s.prev_y1 - e2 * s.prev_y2 + dt * g0 * x +
        dt * (g1 - 2 * e1 * g0 * c) * s.prev_x
      (Except.ok y, { s with prev_y2 := s.prev_y1, prev_y1 := y, prev_x := x })
    | _, _, _ => (Except.error PyError.typeError, s)
  | _, _ => (Except.error PyError.valueError, s)

/-- Field-wise correspondence between a state of the
`RecursiveConvolution.py` class and a state of the `cart.py` copy. -/
def Agree (s : RecursiveConvolution) (t : RecursiveConvolutionCart) : Prop :=
  s.g0 = t.g0 ∧ s.g1 = t.g1 ∧ s.g2 = t.g2 ∧ s.alpha = t.alpha ∧
  s.omega = t.omega ∧ s.prev_y1 = t.prev_y1 ∧ s.prev_y2 = t.prev_y2 ∧
  s.prev_x = t.prev_x ∧ s.dt = t.dt

/-- C9: the two class definitions are behaviorally identical: the
constructors produce corresponding states, and from corresponding states
`update_parameters` and `calculate_output` produce equal results and
corresponding successor states for every argument. -/
theorem classes_behaviorally_identical (s : RecursiveConvolution)
    (t : RecursiveConvolutionCart) (b m k dt x : ℝ) (h : Agree s t) :
    Agree RecursiveConvolution.init RecursiveConvolutionCart.init ∧
    (s.update_parameters b m k dt).1 = (t.update_parameters b m k dt).1 ∧
    Agree (s.update_parameters b m k dt).2 (t.update_parameters b m k dt).2 ∧
    (s.calculate_output x).1 = (t.calculate_output x).1 ∧
    Agree (s.calculate_output x).2 (t.calculate_output x).2 := by
  obtain ⟨h0, h1, h2, h3, h4, h5, h6, h7, h8⟩ := h
  refine ⟨⟨rfl, rfl, rfl, rfl, rfl, rfl, rfl, rfl, rfl⟩, ?_, ?_, ?_, ?_⟩
  · by_cases hc1 : 2 * m = 0 <;>
      by_cases hc2 : m * Real.sqrt (max 0 (k / m - (b / (2 * m)) ^ 2)) = 0 <;>
      simp [RecursiveConvolution.update_parameters,
        RecursiveConvolutionCart.update_parameters, hc1, hc2]
  · by_cases hc1 : 2 * m = 0 <;>
      by_cases hc2 : m * Real.sqrt (max 0 (k / m - (b / (2 * m)) ^ 2)) = 0 <;>
      simp [RecursiveConvolution.update_parameters,
        RecursiveConvolutionCart.update_parameters, Agree, hc1, hc2,
        h0, h1, h2, h3, h4, h5, h6, h7, h8]
  · rcases hA : t.g1 with _ | g1v <;> rcases hB : t.dt with _ | dtv <;>
      rcases hC : t.alpha with _ | av <;> rcases hD : t.omega with _ | wv <;>
      rcases hE : t.g0 with _ | g0v <;>
      simp [RecursiveConvolution.calculate_output,
        RecursiveConvolutionCart.calculate_output, hA, hB, hC, hD, hE,
        h0, h1, h3, h4, h5, h6, h7, h8]
  · rcases hA : t.g1 with _ | g1v <;> rcases hB : t.dt with _ | dtv <;>
      rcases hC : t.alpha with _ | av <;> rcases hD : t.omega with _ | wv <;>
      rcases hE : t.g0 with _ | g0v <;>
      simp [RecursiveConvolution.calculate_output,
        RecursiveConvolutionCart.calculate_output, Agree, hA, hB, hC, hD, hE,
        h0, h1, h2, h3, h4, h5, h6, h7, h8]

/-- Instantiation of C9 at the two constructors with
`b=0, m=1, k=1, dt=1`. -/
theorem classes_behaviorally_identical_witness :
    (RecursiveConvolution.init.update_parameters 0 1 1 1).1 =
      (RecursiveConvolutionCart.init.update_parameters 0 1 1 1).1 :=
  (classes_behaviorally_identical RecursiveConvolution.init
    RecursiveConvolutionCart.init 0 1 1 1 0
    ⟨rfl, rfl, rfl, rfl, rfl, rfl, rfl, rfl, rfl⟩).2.1

/-- States reachable from the constructor by any sequence of
`update_parameters` and `calculate_output` calls (including failed calls,
which in Python still leave a state behind). -/
inductive Reachable : RecursiveConvolution → Prop where
  | init : Reachable RecursiveConvolution.init
  | update (s : RecursiveConvolution) (b m k dt : ℝ) :
      Reachable s → Reachable (s.update_parameters b m k dt).2
  | advance (s : RecursiveConvolution) (x : ℝ) :
      Reachable s → Reachable (s.calculate_output x).2

/-- In every reachable state, once `g1` is set, `alpha`, `omega`, `g0` and
`dt` are set as well. -/
theorem reachable_coeffs_set (s : RecursiveConvolution) (h : Reachable s) :
    s.g1 ≠ none →
      s.alpha ≠ none ∧ s.omega ≠ none ∧ s.g0 ≠ none ∧ s.dt ≠ none := by
  induction h with
  | init =>
    intro hg
    simp [RecursiveConvolution.init] at hg
  | update s b m k dt hr ih =>
    intro hg
    by_cases hc1 : 2 * m = 0
    · simp only [RecursiveConvolution.update_parameters, hc1,
        if_true] at hg ⊢
      exact ih hg
    · by_cases hc2 : m * Real.sqrt (max 0 (k / m - (b / (2 * m)) ^ 2)) = 0
      · simp [RecursiveConvolution.update_parameters, hc1, hc2] at hg ⊢
        exact (ih hg).2.2.2
      · simp [RecursiveConvolution.update_parameters, hc1, hc2]
  | advance s x hr ih =>
    have hfields : ((s.calculate_output x).2).g1 = s.g1 ∧
        ((s.calculate_output x).2).alpha = s.alpha ∧
        ((s.calculate_output x).2).omega = s.omega ∧
        ((s.calculate_output x).2).g0 = s.g0 ∧
        ((s.calculate_output x).2).dt = s.dt := by
      rcases hA : s.g1 with _ | g1v <;> rcases hB : s.dt with _ | dtv <;>
        rcases hC : s.alpha with _ | av <;> rcases hD : s.omega with _ | wv <;>
        rcases hE : s.g0 with _ | g0v <;>
        simp [RecursiveConvolution.calculate_output, hA, hB, hC, hD, hE]
    rw [hfields.1, hfields.2.1, hfields.2.2.1, hfields.2.2.2.1,
      hfields.2.2.2.2]
    exact ih

/-- C10: once the filter is initialized — a reachable state in which the
guard fields `g1` and `dt` are set — `calculate_output` is total: its body
uses only exponential, cosine, multiplication, addition and subtraction, so
it returns a value and never signals an error, for every input. -/
theorem calculate_output_total (s : RecursiveConvolution) (x : ℝ)
    (hr : Reachable s) (hg1 : s.g1 ≠ none) (hdt : s.dt ≠ none) :
    ∃ y, (s.calculate_output x).1 = Except.ok y := by
  obtain ⟨ha, hw, hg0, hd⟩ := reachable_coeffs_set s hr hg1
  rcases hA : s.g1 with _ | g1v
  · exact absurd hA hg1
  rcases hB : s.dt with _ | dtv
  · exact absurd hB hdt
  rcases hC : s.alpha with _ | av
  · exact absurd hC ha
  rcases hD : s.omega with _ | wv
  · exact absurd hD hw
  rcases hE : s.g0 with _ | g0v
  · exact absurd hE hg0
  simp only [RecursiveConvolution.calculate_output, hA, hB, hC, hD, hE]
  exact ⟨_, rfl⟩

/-- Instantiation of C10 at the state reached by the successful call
`update_parameters(0, 1, 1, 1)` on a fresh filter, with input `x = 2`. -/
theorem calculate_output_total_witness :
    ∃ y, (((RecursiveConvolution.init.update_parameters
        0 1 1 1).2).calculate_output 2).1 = Except.ok y :=
  calculate_output_total
    (RecursiveConvolution.init.update_parameters 0 1 1 1).2 2
    (Reachable.update RecursiveConvolution.init 0 1 1 1 Reachable.init)
    (by norm_num [RecursiveConvolution.update_parameters,
      Real.sqrt_eq_zero', max_le_iff, Option.some_ne_none])
    (by norm_num [RecursiveConvolution.update_parameters,
      Real.sqrt_eq_zero', max_le_iff, Option.some_ne_none])

end RecConv
